import Mathlib

/-!
Shallow embedding of the chess engine (ChessEngine.py, myBot.py) of the
repository under verification.

Modelling conventions:
* A two-character Python piece string ("wP", "bK", "--") is the inductive
  type `Piece`; the first character is the `PColor`, the second the `PKind`,
  and "--" is `Piece.empty`.
* The 8x8 board (a Python list of lists of strings) is a `List (List Piece)`;
  `boardGet`/`boardSet` guard the index range exactly as the source only ever
  reads and writes in-range squares on the states considered here.
* Python lists used as stacks (moveLog, enpassantPossibleLog, castleRightsLog)
  are Lean lists stored most-recent-first: Python append/pop at the end is
  cons/head here.
* The Python empty tuple () used as the no-en-passant sentinel is `none`;
  a square pair (r, c) is `some (r, c)`.
* Methods that mutate the GameState in place become functions returning the
  updated state; methods that mutate and also return a value return a pair.
* Coordinates are `Int` because the source forms intermediate coordinates
  such as r + d * i that can leave the 0..7 range before the bounds check.
-/

namespace ChessSpec

/-- Color character of a piece: the first character of a Python piece string. -/
inductive PColor
  | w
  | b
deriving DecidableEq, Repr

/-- Kind character of a piece: the second character of a Python piece string. -/
inductive PKind
  | P
  | R
  | N
  | B
  | Q
  | K
deriving DecidableEq, Repr

/-- A board square content: "--" is `empty`, otherwise a colored piece. -/
inductive Piece
  | empty
  | mk (color : PColor) (kind : PKind)
deriving DecidableEq, Repr

/-- Test the color character of a piece, mirroring piece[0] == c; false on "--". -/
def Piece.isColor : Piece → PColor → Bool
  | Piece.empty, _ => false
  | Piece.mk c _, c0 => c == c0

/-- Test the kind character of a piece, mirroring piece[1] == k; false on "--". -/
def Piece.isKind : Piece → PKind → Bool
  | Piece.empty, _ => false
  | Piece.mk _ k, k0 => k == k0

/-- Replace the kind of a piece by queen, mirroring pieceMoved[0] + "Q". -/
def Piece.promoteQ : Piece → Piece
  | Piece.empty => Piece.empty
  | Piece.mk c _ => Piece.mk c PKind.Q

/-- The board: 8 rows of 8 squares, row 0 at the top (rank 8). -/
abbrev Board := List (List Piece)

/-- Read board[r][c]; total, returning empty off the 0..7 range.  The source
only reads in-range squares on the states this development evaluates. -/
def boardGet (board : Board) (r c : Int) : Piece :=
  if 0 ≤ r ∧ r < 8 ∧ 0 ≤ c ∧ c < 8 then
    (board.getD r.toNat []).getD c.toNat Piece.empty
  else
    Piece.empty

/-- Write board[r][c] := p; total, a no-op off the 0..7 range. -/
def boardSet (board : Board) (r c : Int) (p : Piece) : Board :=
  if 0 ≤ r ∧ r < 8 ∧ 0 ≤ c ∧ c < 8 then
    board.set r.toNat ((board.getD r.toNat []).set c.toNat p)
  else
    board

/-- A pin or check entry: (row, col, directionRow, directionCol), as the
4-tuples produced by checkForPinsAndChecks. -/
structure RayInfo where
  row : Int
  col : Int
  dr : Int
  dc : Int
deriving DecidableEq, Repr

/-- The CastleRights class: four independent booleans. -/
structure CastleRights where
  wks : Bool
  bks : Bool
  wqs : Bool
  bqs : Bool
deriving DecidableEq, Repr

/-- The Move class.  All fields are set in Move.__init__; isCaptureMove and
moveID are derived below since nothing ever mutates a Move. -/
structure Move where
  startRow : Int
  startCol : Int
  endRow : Int
  endCol : Int
  pieceMoved : Piece
  pieceCaptured : Piece
  isPawnPromotion : Bool
  isEnpassantMove : Bool
  isCastleMove : Bool
deriving DecidableEq, Repr

/-- Move.moveID = startRow*1000 + startCol*100 + endRow*10 + endCol. -/
def Move.moveID (m : Move) : Int :=
  m.startRow * 1000 + m.startCol * 100 + m.endRow * 10 + m.endCol

/-- Move.__eq__: two moves are equal when their moveIDs are equal. -/
def moveEq (m1 m2 : Move) : Bool :=
  m1.moveID == m2.moveID

/-- Move.isCaptureMove = pieceCaptured != "--". -/
def Move.isCaptureMove (m : Move) : Bool :=
  m.pieceCaptured != Piece.empty

/-- Move.__init__: reads the moved and captured piece from the board; for an
en-passant move the captured piece is the enemy pawn. -/
def mkMove (sr sc er ec : Int) (board : Board)
    (isEnpassantMove isPawnPromotion isCastleMove : Bool) : Move :=
  let pieceMoved := boardGet board sr sc
  let pieceCaptured0 := boardGet board er ec
  let pieceCaptured :=
    if isEnpassantMove then
      (if pieceMoved == Piece.mk PColor.b PKind.P then Piece.mk PColor.w PKind.P
       else Piece.mk PColor.b PKind.P)
    else pieceCaptured0
  { startRow := sr, startCol := sc, endRow := er, endCol := ec,
    pieceMoved := pieceMoved, pieceCaptured := pieceCaptured,
    isPawnPromotion := isPawnPromotion, isEnpassantMove := isEnpassantMove,
    isCastleMove := isCastleMove }

/-- The GameState class.  moveFunctions (a dict of bound methods) becomes the
dispatch in getAllPossibleMoves.  Logs are stored most-recent-first. -/
structure GameState where
  board : Board
  whiteToMove : Bool
  moveLog : List Move
  whiteKingLocation : Int × Int
  blackKingLocation : Int × Int
  inCheck : Bool
  checkMate : Bool
  staleMate : Bool
  pins : List RayInfo
  checks : List RayInfo
  enpassantPossible : Option (Int × Int)
  enpassantPossibleLog : List (Option (Int × Int))
  currentCastlingRights : CastleRights
  castleRightsLog : List CastleRights
deriving DecidableEq, Repr

/-- GameState.__init__: the standard starting position. -/
def initialGameState : GameState :=
  let bRow0 : List Piece :=
    [Piece.mk PColor.b PKind.R, Piece.mk PColor.b PKind.N, Piece.mk PColor.b PKind.B,
     Piece.mk PColor.b PKind.Q, Piece.mk PColor.b PKind.K, Piece.mk PColor.b PKind.B,
     Piece.mk PColor.b PKind.N, Piece.mk PColor.b PKind.R]
  let bPawns : List Piece := List.replicate 8 (Piece.mk PColor.b PKind.P)
  let emptyRow : List Piece := List.replicate 8 Piece.empty
  let wPawns : List Piece := List.replicate 8 (Piece.mk PColor.w PKind.P)
  let wRow7 : List Piece :=
    [Piece.mk PColor.w PKind.R, Piece.mk PColor.w PKind.N, Piece.mk PColor.w PKind.B,
     Piece.mk PColor.w PKind.Q, Piece.mk PColor.w PKind.K, Piece.mk PColor.w PKind.B,
     Piece.mk PColor.w PKind.N, Piece.mk PColor.w PKind.R]
  { board := [bRow0, bPawns, emptyRow, emptyRow, emptyRow, emptyRow, wPawns, wRow7],
    whiteToMove := true,
    moveLog := [],
    whiteKingLocation := (7, 4),
    blackKingLocation := (0, 4),
    inCheck := false,
    checkMate := false,
    staleMate := false,
    pins := [],
    checks := [],
    enpassantPossible := none,
    enpassantPossibleLog := [none],
    currentCastlingRights := ⟨true, true, true, true⟩,
    castleRightsLog := [⟨true, true, true, true⟩] }

/-- The first if-chain of GameState.updateCastleRights: clear a right when
the captured piece is a rook, decided by the end column alone. -/
def updateCastleRightsCapture (move : Move) (cr : CastleRights) : CastleRights :=
  if move.pieceCaptured == Piece.mk PColor.w PKind.R then
    (if move.endCol == 0 then { cr with wqs := false }
     else if move.endCol == 7 then { cr with wks := false }
     else cr)
  else if move.pieceCaptured == Piece.mk PColor.b PKind.R then
    (if move.endCol == 0 then { cr with bqs := false }
     else if move.endCol == 7 then { cr with bks := false }
     else cr)
  else cr

/-- The second if-chain of GameState.updateCastleRights: king moves clear both
rights of that color; rook moves from the original corner clear one right. -/
def updateCastleRightsMoved (move : Move) (cr1 : CastleRights) : CastleRights :=
  if move.pieceMoved == Piece.mk PColor.w PKind.K then
    { cr1 with wqs := false, wks := false }
  else if move.pieceMoved == Piece.mk PColor.b PKind.K then
    { cr1 with bqs := false, bks := false }
  else if move.pieceMoved == Piece.mk PColor.w PKind.R then
    (if move.startRow == 7 then
      (if move.startCol == 0 then { cr1 with wqs := false }
       else if move.startCol == 7 then { cr1 with wks := false }
       else cr1)
     else cr1)
  else if move.pieceMoved == Piece.mk PColor.b PKind.R then
    (if move.startRow == 0 then
      (if move.startCol == 0 then { cr1 with bqs := false }
       else if move.startCol == 7 then { cr1 with bks := false }
       else cr1)
     else cr1)
  else cr1

/-- GameState.updateCastleRights: the capture if-chain followed by the
moved-piece if-chain. -/
def updateCastleRights (move : Move) (cr : CastleRights) : CastleRights :=
  updateCastleRightsMoved move (updateCastleRightsCapture move cr)

/-- GameState.makeMove: apply a move, updating board, log, turn, king
locations, en-passant state, promotion, castling rook relocation, and the
castling-rights log. -/
def makeMove (gs : GameState) (move : Move) : GameState :=
  let board := boardSet gs.board move.startRow move.startCol Piece.empty
  let board := boardSet board move.endRow move.endCol move.pieceMoved
  let gs := { gs with board := board, moveLog := move :: gs.moveLog,
                      whiteToMove := !gs.whiteToMove }
  let gs :=
    if move.pieceMoved == Piece.mk PColor.w PKind.K then
      { gs with whiteKingLocation := (move.endRow, move.endCol) }
    else gs
  let gs :=
    if move.pieceMoved == Piece.mk PColor.b PKind.K then
      { gs with blackKingLocation := (move.endRow, move.endCol) }
    else gs
  let gs :=
    if move.pieceMoved.isKind PKind.P ∧ (move.startRow - move.endRow).natAbs = 2 then
      { gs with enpassantPossible := some ((move.endRow + move.startRow) / 2, move.endCol) }
    else
      { gs with enpassantPossible := none }
  let gs :=
    if move.isEnpassantMove then
      { gs with board := boardSet gs.board move.startRow move.endCol Piece.empty }
    else gs
  let gs :=
    if move.isPawnPromotion then
      { gs with board := boardSet gs.board move.endRow move.endCol move.pieceMoved.promoteQ }
    else gs
  let gs :=
    if move.isCastleMove then
      (if move.endCol - move.startCol == 2 then
        let rook := boardGet gs.board move.endRow (move.endCol + 1)
        let b := boardSet gs.board move.endRow (move.endCol - 1) rook
        { gs with board := boardSet b move.endRow (move.endCol + 1) Piece.empty }
       else
        let rook := boardGet gs.board move.endRow (move.endCol - 2)
        let b := boardSet gs.board move.endRow (move.endCol + 1) rook
        { gs with board := boardSet b move.endRow (move.endCol - 2) Piece.empty })
    else gs
  let gs := { gs with enpassantPossibleLog := gs.enpassantPossible :: gs.enpassantPossibleLog }
  let cr := updateCastleRights move gs.currentCastlingRights
  { gs with currentCastlingRights := cr, castleRightsLog := cr :: gs.castleRightsLog }

/-- GameState.undoMove: pop the last move and revert; the en-passant log is
popped only for en-passant capture moves, exactly as in the source. -/
def undoMove (gs : GameState) : GameState :=
  match gs.moveLog with
  | [] => gs
  | move :: rest =>
    let gs := { gs with moveLog := rest }
    let board := boardSet gs.board move.startRow move.startCol move.pieceMoved
    let board := boardSet board move.endRow move.endCol move.pieceCaptured
    let gs := { gs with board := board, whiteToMove := !gs.whiteToMove }
    let gs :=
      if move.pieceMoved == Piece.mk PColor.w PKind.K then
        { gs with whiteKingLocation := (move.startRow, move.startCol) }
      else if move.pieceMoved == Piece.mk PColor.b PKind.K then
        { gs with blackKingLocation := (move.startRow, move.startCol) }
      else gs
    let gs :=
      if move.isEnpassantMove then
        let b := boardSet gs.board move.endRow move.endCol Piece.empty
        let b := boardSet b move.startRow move.endCol move.pieceCaptured
        let epLog := gs.enpassantPossibleLog.tail
        { gs with board := b, enpassantPossibleLog := epLog,
                  enpassantPossible := epLog.headD none }
      else gs
    let gs :=
      if move.pieceMoved.isKind PKind.P ∧ (move.startRow - move.endRow).natAbs = 2 then
        { gs with enpassantPossible := none }
      else gs
    let crLog := gs.castleRightsLog.tail
    let gs := { gs with castleRightsLog := crLog,
                        currentCastlingRights := crLog.headD ⟨true, true, true, true⟩ }
    let gs :=
      if move.isCastleMove then
        (if move.endCol - move.startCol == 2 then
          let rook := boardGet gs.board move.endRow (move.endCol - 1)
          let b := boardSet gs.board move.endRow (move.endCol + 1) rook
          { gs with board := boardSet b move.endRow (move.endCol - 1) Piece.empty }
         else
          let rook := boardGet gs.board move.endRow (move.endCol + 1)
          let b := boardSet gs.board move.endRow (move.endCol - 2) rook
          { gs with board := boardSet b move.endRow (move.endCol + 1) Piece.empty })
      else gs
    { gs with checkMate := false, staleMate := false }

/-- The eight scan directions of checkForPinsAndChecks, indexed by j:
4 orthogonal, then 4 diagonal. -/
def scanDirections : List (Int × Int) :=
  [(-1, 0), (0, -1), (1, 0), (0, 1), (-1, -1), (-1, 1), (1, -1), (1, 1)]

/-- The eight knight move offsets. -/
def knightOffsets : List (Int × Int) :=
  [(-2, -1), (-2, 1), (-1, -2), (-1, 2), (1, -2), (1, 2), (2, -1), (2, 1)]

/-- Kind of a piece with a default for the empty square; only applied under
guards that ensure the piece is not empty. -/
def Piece.kindD : Piece → PKind
  | Piece.empty => PKind.P
  | Piece.mk _ k => k

/-- Result of scanning one ray from the king in checkForPinsAndChecks. -/
inductive ScanRes
  | nothingFound
  | pinFound (p : RayInfo)
  | checkFound (c : RayInfo)
deriving DecidableEq, Repr

/-- The five-way attack condition of checkForPinsAndChecks for an enemy piece
of kind t met at step i along direction index j. -/
def enemyGivesCheck (enemyColor : PColor) (j : Nat) (i : Int) (t : PKind) : Bool :=
  (decide (j ≤ 3) && t == PKind.R)
  || (decide (4 ≤ j) && decide (j ≤ 7) && t == PKind.B)
  || (i == 1 && t == PKind.P
      && ((enemyColor == PColor.w && decide (6 ≤ j) && decide (j ≤ 7))
          || (enemyColor == PColor.b && decide (4 ≤ j) && decide (j ≤ 5))))
  || (t == PKind.Q)
  || (i == 1 && t == PKind.K)

/-- The inner loop (i = 1..7, with break) of checkForPinsAndChecks along one
direction: track the first allied non-king piece as a possible pin; an enemy
piece yields a check (no blocker) or a pin (one blocker) when its kind attacks
along this direction, else the scan stops.  fuel counts remaining iterations;
the step index is i = 8 - fuel at each call. -/
def scanRay (board : Board) (allyColor enemyColor : PColor)
    (startRow startCol : Int) (j : Nat) (dr dc : Int) :
    Nat → Option RayInfo → ScanRes
  | 0, _ => ScanRes.nothingFound
  | fuel + 1, possiblePin =>
    let i : Int := 8 - ((fuel : Int) + 1)
    let endRow := startRow + dr * i
    let endCol := startCol + dc * i
    if 0 ≤ endRow ∧ endRow < 8 ∧ 0 ≤ endCol ∧ endCol < 8 then
      let endPiece := boardGet board endRow endCol
      if endPiece.isColor allyColor && !(endPiece.isKind PKind.K) then
        match possiblePin with
        | none =>
          scanRay board allyColor enemyColor startRow startCol j dr dc fuel
            (some ⟨endRow, endCol, dr, dc⟩)
        | some _ => ScanRes.nothingFound
      else if endPiece.isColor enemyColor then
        if enemyGivesCheck enemyColor j i endPiece.kindD then
          match possiblePin with
          | none => ScanRes.checkFound ⟨endRow, endCol, dr, dc⟩
          | some p => ScanRes.pinFound p
        else ScanRes.nothingFound
      else
        scanRay board allyColor enemyColor startRow startCol j dr dc fuel possiblePin
    else ScanRes.nothingFound

/-- GameState.checkForPinsAndChecks: ray scan in all 8 directions for pins and
checks, then the knight-offset scan; returns (inCheck, pins, checks). -/
def checkForPinsAndChecks (gs : GameState) : Bool × List RayInfo × List RayInfo :=
  let (enemyColor, allyColor, startRow, startCol) :=
    if gs.whiteToMove then
      (PColor.b, PColor.w, gs.whiteKingLocation.1, gs.whiteKingLocation.2)
    else
      (PColor.w, PColor.b, gs.blackKingLocation.1, gs.blackKingLocation.2)
  let afterRays := (List.range 8).foldl
    (fun (acc : Bool × List RayInfo × List RayInfo) j =>
      let d := scanDirections.getD j (0, 0)
      match scanRay gs.board allyColor enemyColor startRow startCol j d.1 d.2 7 none with
      | ScanRes.nothingFound => acc
      | ScanRes.pinFound p => (acc.1, acc.2.1 ++ [p], acc.2.2)
      | ScanRes.checkFound c => (true, acc.2.1, acc.2.2 ++ [c]))
    (false, [], [])
  knightOffsets.foldl
    (fun (acc : Bool × List RayInfo × List RayInfo) m =>
      let endRow := startRow + m.1
      let endCol := startCol + m.2
      if 0 ≤ endRow ∧ endRow < 8 ∧ 0 ≤ endCol ∧ endCol < 8 then
        let endPiece := boardGet gs.board endRow endCol
        if endPiece.isColor enemyColor && endPiece.isKind PKind.N then
          (true, acc.2.1, acc.2.2 ++ [⟨endRow, endCol, m.1, m.2⟩])
        else acc
      else acc)
    afterRays

/-- The pin-lookup loop at the top of the pawn, knight and bishop move
generators: scan the pins list from the end for an entry at (r, c); if found,
report (pinned, direction) and remove the entry (Python list.remove, the first
equal element).  The (0, 0) direction stands for the Python () placeholder and
is only read under the pinned flag. -/
def pinLookup (pins : List RayInfo) (r c : Int) : Bool × (Int × Int) × List RayInfo :=
  match pins.reverse.find? (fun p => p.row == r && p.col == c) with
  | some p => (true, (p.dr, p.dc), pins.erase p)
  | none => (false, (0, 0), pins)

/-- The pin lookup of getRookMoves, which keeps the entry when piece at (r, c)
is a queen (so that the rook part of a queen cannot consume the pin). -/
def pinLookupRook (board : Board) (pins : List RayInfo) (r c : Int) :
    Bool × (Int × Int) × List RayInfo :=
  match pins.reverse.find? (fun p => p.row == r && p.col == c) with
  | some p =>
    (true, (p.dr, p.dc),
     if !((boardGet board r c).isKind PKind.Q) then pins.erase p else pins)
  | none => (false, (0, 0), pins)

/-- The inner loop (i = 1..7) of the sliding generators along one direction:
append empty squares; append an enemy square and stop; stop at an allied piece
or the board edge.  fuel counts remaining iterations; i is the step index. -/
def slideMoves (board : Board) (enemyColor : PColor) (r c dr dc : Int) :
    Nat → Int → List Move
  | 0, _ => []
  | fuel + 1, i =>
    let endRow := r + dr * i
    let endCol := c + dc * i
    if 0 ≤ endRow ∧ endRow < 8 ∧ 0 ≤ endCol ∧ endCol < 8 then
      let endPiece := boardGet board endRow endCol
      if endPiece == Piece.empty then
        mkMove r c endRow endCol board false false false ::
          slideMoves board enemyColor r c dr dc fuel (i + 1)
      else if endPiece.isColor enemyColor then
        [mkMove r c endRow endCol board false false false]
      else []
    else []

/-- GameState.getRookMoves: pin handling, then four orthogonal directions.  A
direction not compatible with the pin contributes nothing, exactly as the
guarded loop body in the source appends nothing. -/
def getRookMoves (gs : GameState) (r c : Int) (moves : List Move) :
    GameState × List Move :=
  let (piecePinned, pinDirection, pins1) := pinLookupRook gs.board gs.pins r c
  let enemyColor := if gs.whiteToMove then PColor.b else PColor.w
  let dirs : List (Int × Int) := [(-1, 0), (0, -1), (1, 0), (0, 1)]
  let newMoves := dirs.foldl
    (fun acc d =>
      if !piecePinned || pinDirection == d || pinDirection == (-d.1, -d.2) then
        acc ++ slideMoves gs.board enemyColor r c d.1 d.2 7 1
      else acc)
    moves
  ({ gs with pins := pins1 }, newMoves)

/-- GameState.getBishopMoves: pin handling (the pin entry is removed even for
a queen, as in the source), then four diagonal directions. -/
def getBishopMoves (gs : GameState) (r c : Int) (moves : List Move) :
    GameState × List Move :=
  let (piecePinned, pinDirection, pins1) := pinLookup gs.pins r c
  let enemyColor := if gs.whiteToMove then PColor.b else PColor.w
  let dirs : List (Int × Int) := [(-1, -1), (-1, 1), (1, -1), (1, 1)]
  let newMoves := dirs.foldl
    (fun acc d =>
      if !piecePinned || pinDirection == d || pinDirection == (-d.1, -d.2) then
        acc ++ slideMoves gs.board enemyColor r c d.1 d.2 7 1
      else acc)
    moves
  ({ gs with pins := pins1 }, newMoves)

/-- GameState.getKnightMoves: a pinned knight contributes no moves; otherwise
each on-board offset square not occupied by an ally is a move. -/
def getKnightMoves (gs : GameState) (r c : Int) (moves : List Move) :
    GameState × List Move :=
  let (piecePinned, _pinDirection, pins1) := pinLookup gs.pins r c
  let allyColor := if gs.whiteToMove then PColor.w else PColor.b
  let newMoves := knightOffsets.foldl
    (fun acc m =>
      let endRow := r + m.1
      let endCol := c + m.2
      if 0 ≤ endRow ∧ endRow < 8 ∧ 0 ≤ endCol ∧ endCol < 8 then
        if !piecePinned then
          (if !((boardGet gs.board endRow endCol).isColor allyColor) then
            acc ++ [mkMove r c endRow endCol gs.board false false false]
          else acc)
        else acc
      else acc)
    moves
  ({ gs with pins := pins1 }, newMoves)

/-- GameState.getQueenMoves: bishop moves then rook moves, in source order. -/
def getQueenMoves (gs : GameState) (r c : Int) (moves : List Move) :
    GameState × List Move :=
  let gen := getBishopMoves gs r c moves
  getRookMoves gen.1 r c gen.2

/-- GameState.getKingMoves: try the 8 adjacent squares; the speculative king
relocation followed by a restore in the source becomes evaluating
checkForPinsAndChecks on a copy with the king location replaced, since the
source restores the location afterwards and the scan itself is pure. -/
def getKingMoves (gs : GameState) (row col : Int) (moves : List Move) : List Move :=
  let rowMoves : List Int := [-1, -1, -1, 0, 0, 1, 1, 1]
  let colMoves : List Int := [-1, 0, 1, -1, 1, -1, 0, 1]
  let allyColor := if gs.whiteToMove then PColor.w else PColor.b
  (List.range 8).foldl
    (fun acc i =>
      let endRow := row + rowMoves.getD i 0
      let endCol := col + colMoves.getD i 0
      if 0 ≤ endRow ∧ endRow < 8 ∧ 0 ≤ endCol ∧ endCol < 8 then
        let endPiece := boardGet gs.board endRow endCol
        if !(endPiece.isColor allyColor) then
          let gsK :=
            if allyColor == PColor.w then { gs with whiteKingLocation := (endRow, endCol) }
            else { gs with blackKingLocation := (endRow, endCol) }
          let (ic, _, _) := checkForPinsAndChecks gsK
          if !ic then acc ++ [mkMove row col endRow endCol gs.board false false false]
          else acc
        else acc
      else acc)
    moves

/-- Python range(a, b) (ascending, b excluded), over Int. -/
def intRangeUp (a b : Int) : List Int :=
  (List.range (b - a).toNat).map (fun i => a + (i : Int))

/-- Python range(a, b, -1) (descending, b excluded), over Int. -/
def intRangeDown (a b : Int) : List Int :=
  (List.range (a - b).toNat).map (fun i => a - (i : Int))

/-- The inside-range loop of the en-passant discovered-check test in
getPawnMoves: some piece stands between king and pawn on the rank. -/
def epInsideBlocked (board : Board) (row : Int) (cols : List Int) : Bool :=
  cols.any (fun i => !(boardGet board row i == Piece.empty))

/-- The outside-range loop of the en-passant discovered-check test in
getPawnMoves: walking away from the pawn pair, an enemy rook or queen marks an
attacker and the walk continues; any other piece blocks and the walk stops.
Returns (attackingPiece, blockingPiece). -/
def epOutsideScan (board : Board) (row : Int) (enemyColor : PColor)
    (cols : List Int) : Bool × Bool :=
  let res := cols.foldl
    (fun (st : Bool × Bool × Bool) i =>
      if st.2.2 then st
      else
        let square := boardGet board row i
        if square.isColor enemyColor
            && (square.isKind PKind.R || square.isKind PKind.Q) then
          (true, st.2.1, false)
        else if !(square == Piece.empty) then
          (st.1, true, true)
        else st)
    (false, false, false)
  (res.1, res.2.1)

/-- GameState.getPawnMoves: pin handling, forward single and double advances,
the two diagonal capture blocks with promotion flagging (the isPawnPromotion
local persists across blocks, as in the source), and en-passant captures
guarded by the discovered-check rank scan. -/
def getPawnMoves (gs : GameState) (row col : Int) (moves : List Move) :
    GameState × List Move :=
  let (piecePinned, pinDirection, pins1) := pinLookup gs.pins row col
  let (moveAmount, startRow, backRow, enemyColor, kingLoc) :=
    if gs.whiteToMove then
      ((-1 : Int), (6 : Int), (0 : Int), PColor.b, gs.whiteKingLocation)
    else
      ((1 : Int), (1 : Int), (7 : Int), PColor.w, gs.blackKingLocation)
  let kingRow := kingLoc.1
  let kingCol := kingLoc.2
  -- forward moves
  let (isPP1, moves1) :=
    if boardGet gs.board (row + moveAmount) col == Piece.empty then
      (if !piecePinned || pinDirection == (moveAmount, 0) then
        let pp : Bool := row + moveAmount == backRow
        let ms := moves ++ [mkMove row col (row + moveAmount) col gs.board false pp false]
        let ms :=
          if row == startRow
              && boardGet gs.board (row + 2 * moveAmount) col == Piece.empty then
            ms ++ [mkMove row col (row + 2 * moveAmount) col gs.board false false false]
          else ms
        (pp, ms)
      else (false, moves))
    else (false, moves)
  -- capture to the left
  let (isPP2, moves2) :=
    if 0 ≤ col - 1 then
      (if !piecePinned || pinDirection == (moveAmount, -1) then
        let (ppA, msA) :=
          if (boardGet gs.board (row + moveAmount) (col - 1)).isColor enemyColor then
            let pp := if row + moveAmount == backRow then true else isPP1
            (pp, moves1 ++ [mkMove row col (row + moveAmount) (col - 1) gs.board false pp false])
          else (isPP1, moves1)
        let msA :=
          if some (row + moveAmount, col - 1) == gs.enpassantPossible then
            let (attackingPiece, blockingPiece) :=
              if kingRow == row then
                let (insideRange, outsideRange) :=
                  if kingCol < col then
                    (intRangeUp (kingCol + 1) (col - 1), intRangeUp (col + 1) 8)
                  else
                    (intRangeDown (kingCol - 1) col, intRangeDown (col - 2) (-1))
                let insideBlk := epInsideBlocked gs.board row insideRange
                let (att, outBlk) := epOutsideScan gs.board row enemyColor outsideRange
                (att, insideBlk || outBlk)
              else (false, false)
            if !attackingPiece || blockingPiece then
              msA ++ [mkMove row col (row + moveAmount) (col - 1) gs.board true false false]
            else msA
          else msA
        (ppA, msA)
      else (isPP1, moves1))
    else (isPP1, moves1)
  -- capture to the right
  let moves3 :=
    if col + 1 ≤ 7 then
      (if !piecePinned || pinDirection == (moveAmount, 1) then
        let msA :=
          if (boardGet gs.board (row + moveAmount) (col + 1)).isColor enemyColor then
            let pp := if row + moveAmount == backRow then true else isPP2
            moves2 ++ [mkMove row col (row + moveAmount) (col + 1) gs.board false pp false]
          else moves2
        let msA :=
          if some (row + moveAmount, col + 1) == gs.enpassantPossible then
            let (attackingPiece, blockingPiece) :=
              if kingRow == row then
                let (insideRange, outsideRange) :=
                  if kingCol < col then
                    (intRangeUp (kingCol + 1) col, intRangeUp (col + 2) 8)
                  else
                    (intRangeDown (kingCol - 1) (col + 1), intRangeDown (col - 1) (-1))
                let insideBlk := epInsideBlocked gs.board row insideRange
                let (att, outBlk) := epOutsideScan gs.board row enemyColor outsideRange
                (att, insideBlk || outBlk)
              else (false, false)
            if !attackingPiece || blockingPiece then
              msA ++ [mkMove row col (row + moveAmount) (col + 1) gs.board true false false]
            else msA
          else msA
        msA
      else moves2)
    else moves2
  ({ gs with pins := pins1 }, moves3)

/-- GameState.getAllPossibleMoves: scan the board row-major and dispatch on
the piece kind for pieces of the side to move (the moveFunctions dict). -/
def getAllPossibleMoves (gs : GameState) : GameState × List Move :=
  (List.range 8).foldl
    (fun acc r =>
      (List.range 8).foldl
        (fun (acc2 : GameState × List Move) c =>
          let (gsA, ms) := acc2
          let sq := boardGet gsA.board (r : Int) (c : Int)
          if (sq.isColor PColor.w && gsA.whiteToMove)
              || (sq.isColor PColor.b && !gsA.whiteToMove) then
            match sq.kindD with
            | PKind.P => getPawnMoves gsA (r : Int) (c : Int) ms
            | PKind.R => getRookMoves gsA (r : Int) (c : Int) ms
            | PKind.N => getKnightMoves gsA (r : Int) (c : Int) ms
            | PKind.B => getBishopMoves gsA (r : Int) (c : Int) ms
            | PKind.Q => getQueenMoves gsA (r : Int) (c : Int) ms
            | PKind.K => (gsA, getKingMoves gsA (r : Int) (c : Int) ms)
          else acc2)
        acc)
    (gs, [])

/-- GameState.squareUnderAttack: flip the turn, generate all opponent moves,
flip back, and test whether any move ends on (r, c).  The opponent generation
threads the state since it can mutate the pins list. -/
def squareUnderAttack (gs : GameState) (r c : Int) : Bool × GameState :=
  let gs1 := { gs with whiteToMove := !gs.whiteToMove }
  let gen := getAllPossibleMoves gs1
  let gs3 := { gen.1 with whiteToMove := !gen.1.whiteToMove }
  (gen.2.any (fun m => m.endRow == r && m.endCol == c), gs3)

/-- GameState.getKingsideCastleMoves: both squares between king and rook must
be empty and unattacked (the second attack test runs only when the first
square is safe, matching the short-circuit in the source). -/
def getKingsideCastleMoves (gs : GameState) (row col : Int) (moves : List Move) :
    GameState × List Move :=
  if boardGet gs.board row (col + 1) == Piece.empty
      && boardGet gs.board row (col + 2) == Piece.empty then
    let at1 := squareUnderAttack gs row (col + 1)
    if at1.1 then (at1.2, moves)
    else
      let at2 := squareUnderAttack at1.2 row (col + 2)
      if at2.1 then (at2.2, moves)
      else (at2.2, moves ++ [mkMove row col row (col + 2) at2.2.board false false true])
  else (gs, moves)

/-- GameState.getQueensideCastleMoves: the three squares toward the rook must
be empty and the two nearer the king unattacked. -/
def getQueensideCastleMoves (gs : GameState) (row col : Int) (moves : List Move) :
    GameState × List Move :=
  if boardGet gs.board row (col - 1) == Piece.empty
      && boardGet gs.board row (col - 2) == Piece.empty
      && boardGet gs.board row (col - 3) == Piece.empty then
    let at1 := squareUnderAttack gs row (col - 1)
    if at1.1 then (at1.2, moves)
    else
      let at2 := squareUnderAttack at1.2 row (col - 2)
      if at2.1 then (at2.2, moves)
      else (at2.2, moves ++ [mkMove row col row (col - 2) at2.2.board false false true])
  else (gs, moves)

/-- GameState.getCastleMoves: nothing while the king square is attacked; else
kingside and queenside candidates gated by the current rights. -/
def getCastleMoves (gs : GameState) (row col : Int) (moves : List Move) :
    GameState × List Move :=
  let at0 := squareUnderAttack gs row col
  if at0.1 then (at0.2, moves)
  else
    let ks :=
      if (at0.2.whiteToMove && at0.2.currentCastlingRights.wks)
          || (!at0.2.whiteToMove && at0.2.currentCastlingRights.bks) then
        getKingsideCastleMoves at0.2 row col moves
      else (at0.2, moves)
    if (ks.1.whiteToMove && ks.1.currentCastlingRights.wqs)
        || (!ks.1.whiteToMove && ks.1.currentCastlingRights.bqs) then
      getQueensideCastleMoves ks.1 row col ks.2
    else ks

/-- The branch of GameState.getValidMoves that builds the move list: a single
check filters the pseudo-legal moves by the computed valid-square list; a
double check generates king moves only; no check appends castle moves. -/
def getValidMovesStep (gs : GameState) (kingRow kingCol : Int) :
    List Move × GameState :=
  if gs.inCheck then
    if gs.checks.length == 1 then
      let gen := getAllPossibleMoves gs
      let gs1 := gen.1
      let check := gs1.checks.headD ⟨0, 0, 0, 0⟩
      let checkRow := check.row
      let checkCol := check.col
      let pieceChecking := boardGet gs1.board checkRow checkCol
      let validSquares : List (Int × Int) :=
        if pieceChecking.isKind PKind.N then [(checkRow, checkCol)]
        else
          ((List.range 7).map
            (fun j => (kingRow + check.dr * ((j : Int) + 1),
                       kingCol + check.dc * ((j : Int) + 1)))).filter
            (fun sq => sq != (checkRow, checkCol))
      (gen.2.filter
        (fun move => move.pieceMoved.isKind PKind.K
          || validSquares.contains (move.endRow, move.endCol)), gs1)
    else
      (getKingMoves gs kingRow kingCol [], gs)
  else
    let gen := getAllPossibleMoves gs
    let cas := getCastleMoves gen.1 kingRow kingCol gen.2
    (cas.2, cas.1)

/-- The tail of GameState.getValidMoves: when no move exists, checkMate and
staleMate are set from the inCheck flag; otherwise both are cleared. -/
def setMateFlags (moves : List Move) (gs : GameState) : GameState :=
  if moves.isEmpty then { gs with checkMate := gs.inCheck, staleMate := !gs.inCheck }
  else { gs with checkMate := false, staleMate := false }

/-- GameState.getValidMoves: compute pins and checks, snapshot the castling
rights, run the check-status branch (getValidMovesStep), set the mate flags
from whether the move list is empty (setMateFlags), and restore the rights
snapshot before returning. -/
def getValidMoves (gs0 : GameState) : List Move × GameState :=
  let scan := checkForPinsAndChecks gs0
  let gs := { gs0 with inCheck := scan.1, pins := scan.2.1, checks := scan.2.2 }
  let tempCastleRights : CastleRights :=
    ⟨gs.currentCastlingRights.wks, gs.currentCastlingRights.bks,
     gs.currentCastlingRights.wqs, gs.currentCastlingRights.bqs⟩
  let kingLoc := if gs.whiteToMove then gs.whiteKingLocation else gs.blackKingLocation
  let step := getValidMovesStep gs kingLoc.1 kingLoc.2
  (step.1, { setMateFlags step.1 step.2 with currentCastlingRights := tempCastleRights })

/-! Embedding of myBot.py. -/

/-- The CHECKMATE score constant of myBot.py. -/
def CHECKMATE : Int := 1000

/-- The STALEMATE score constant of myBot.py. -/
def STALEMATE : Int := 0

/-- The fixed search depth constant of myBot.py. -/
def DEPTH : Nat := 3

/-- The pieceScore table of myBot.py. -/
def pieceScore : PKind → Int
  | PKind.K => 0
  | PKind.Q => 9
  | PKind.R => 5
  | PKind.B => 3
  | PKind.N => 3
  | PKind.P => 1

/-- scoreBoard from myBot.py: mate scores signed for the side not to move,
stalemate zero, otherwise the material sum (positive favors white). -/
def scoreBoard (gs : GameState) : Int :=
  if gs.checkMate then (if gs.whiteToMove then -CHECKMATE else CHECKMATE)
  else if gs.staleMate then STALEMATE
  else
    gs.board.foldl
      (fun acc rowList => rowList.foldl
        (fun acc2 sq =>
          match sq with
          | Piece.empty => acc2
          | Piece.mk PColor.w k => acc2 + pieceScore k
          | Piece.mk PColor.b k => acc2 - pieceScore k)
        acc)
      0

/-- findMoveNegaMaxAlphaBeta from myBot.py.  The Python global nextMove is
threaded as an extra argument and result; the printed counter global is
dropped.  The recursive call passes (-beta, -alpha, -turnMultiplier) into the
(turnMultiplier, alpha, beta) parameter positions exactly as in the source,
and the loop break becomes a done flag on the fold.  The loop state is
(gs, maxScore, alpha, nextMove, done). -/
def findMoveNegaMaxAlphaBeta (gs : GameState) (validMoves : List Move)
    (depth : Nat) (turnMultiplier alpha beta : Int) (nextMove : Option Move) :
    Int × GameState × Option Move :=
  match depth with
  | 0 => (turnMultiplier * scoreBoard gs, gs, nextMove)
  | d + 1 =>
    let st := validMoves.foldl
      (fun (st : GameState × Int × Int × Option Move × Bool) move =>
        if st.2.2.2.2 then st
        else
          let gsA := st.1
          let maxScore := st.2.1
          let alphaA := st.2.2.1
          let nm := st.2.2.2.1
          let gs1 := makeMove gsA move
          let gen := getValidMoves gs1
          let rec1 :=
            findMoveNegaMaxAlphaBeta gen.2 gen.1 d (-beta) (-alphaA)
              (-turnMultiplier) nm
          let score := -rec1.1
          let stepNext :=
            if maxScore < score then
              (score, if d + 1 == DEPTH then some move else rec1.2.2)
            else (maxScore, rec1.2.2)
          let maxScore1 := stepNext.1
          let nm2 := stepNext.2
          let gs4 := undoMove rec1.2.1
          let alpha1 := if alphaA < maxScore1 then maxScore1 else alphaA
          (gs4, maxScore1, alpha1, nm2, decide (beta ≤ alpha1)))
      (gs, -CHECKMATE, alpha, nextMove, false)
    (st.2.1, st.1, st.2.2.2.1)

/-- findBestMove from myBot.py: reset the global nextMove, run the alpha-beta
search at DEPTH over the window -CHECKMATE..CHECKMATE, and return the recorded
move (the printed counter is dropped). -/
def findBestMove (gs : GameState) (validMoves : List Move) :
    Option Move × GameState :=
  let res :=
    findMoveNegaMaxAlphaBeta gs validMoves DEPTH
      (if gs.whiteToMove then 1 else -1) (-CHECKMATE) CHECKMATE none
  (res.2.2, res.2.1)

/-- findRandomMove from myBot.py: validMoves[random.randint(0, len - 1)].  The
randint outcome is the oracle argument k (randint guarantees 0 ≤ k ≤ len - 1
when the list is nonempty); randint raises ValueError on an empty list, and an
out-of-range index would raise IndexError, both modelled as error results. -/
def findRandomMove (_gs : GameState) (k : Nat) (validMoves : List Move) :
    Except String Move :=
  if validMoves.length = 0 then
    Except.error "ValueError: empty range for randrange"
  else
    match validMoves[k]? with
    | some m => Except.ok m
    | none => Except.error "IndexError: list index out of range"

/-! Concrete positions and moves used to evaluate the engine on specific
inputs.  Coordinates follow the source: row 0 is the top rank (rank 8),
row 7 the bottom rank (rank 1), column 0 is file a. -/

/-- A row of eight empty squares. -/
def emptyRow8 : List Piece := List.replicate 8 Piece.empty

/-- A game state with the given board, side to move, king locations,
en-passant target, and no castling rights; logs are singletons consistent
with the current en-passant and rights values, as after construction. -/
def mkState (board : Board) (whiteToMove : Bool) (wk bk : Int × Int)
    (ep : Option (Int × Int)) : GameState :=
  { board := board,
    whiteToMove := whiteToMove,
    moveLog := [],
    whiteKingLocation := wk,
    blackKingLocation := bk,
    inCheck := false, checkMate := false, staleMate := false,
    pins := [], checks := [],
    enpassantPossible := ep,
    enpassantPossibleLog := [ep],
    currentCastlingRights := ⟨false, false, false, false⟩,
    castleRightsLog := [⟨false, false, false, false⟩] }

/-- Single-check position: white king e1 (7,4) checked by the black queen on
e5 (3,4) along the file; white knight d7 (1,3) can legally capture the queen;
white rook a6 (2,0) can reach (2,4), a ray square beyond the attacker; black
king h8 (0,7). -/
def boardC1 : Board :=
  [ emptyRow8.set 7 (Piece.mk PColor.b PKind.K),
    emptyRow8.set 3 (Piece.mk PColor.w PKind.N),
    emptyRow8.set 0 (Piece.mk PColor.w PKind.R),
    emptyRow8.set 4 (Piece.mk PColor.b PKind.Q),
    emptyRow8, emptyRow8, emptyRow8,
    emptyRow8.set 4 (Piece.mk PColor.w PKind.K) ]

/-- The single-check game state for the rescue-square filter. -/
def gsC1 : GameState := mkState boardC1 true (7, 4) (0, 7) none

/-- The state gsC1 after the pins-and-checks scan, as getValidMoves builds it
before generating moves. -/
def gsC1Scanned : GameState :=
  { gsC1 with inCheck := (checkForPinsAndChecks gsC1).1,
              pins := (checkForPinsAndChecks gsC1).2.1,
              checks := (checkForPinsAndChecks gsC1).2.2 }

/-- The legal knight capture of the checking queen, d7 to e5. -/
def knightCapturesChecker : Move := mkMove 1 3 3 4 boardC1 false false false

/-- An illegal rook move to (2,4), a square on the check ray beyond the
attacker; it does not resolve the check. -/
def rookBeyondAttacker : Move := mkMove 2 0 2 4 boardC1 false false false

/-- White double pawn push e2e4 from the initial position. -/
def moveE2E4 : Move := mkMove 6 4 4 4 initialGameState.board false false false

/-- The state after e2e4: the en-passant target is set to (5,4). -/
def gsAfterE2E4 : GameState := makeMove initialGameState moveE2E4

/-- Black knight g8f6 in reply. -/
def moveNg8f6 : Move := mkMove 0 6 2 5 gsAfterE2E4.board false false false

/-- The state after e2e4, Ng8f6. -/
def gsAfterNf6 : GameState := makeMove gsAfterE2E4 moveNg8f6

/-- The state after undoing Ng8f6. -/
def gsAfterUndo : GameState := undoMove gsAfterNf6

/-- A black bishop capturing a white rook on a8 = (0,0): the captured rook
does not stand on a white rook original corner square (7,0) or (7,7). -/
def bBxA8Rook : Move :=
  { startRow := 2, startCol := 2, endRow := 0, endCol := 0,
    pieceMoved := Piece.mk PColor.b PKind.B,
    pieceCaptured := Piece.mk PColor.w PKind.R,
    isPawnPromotion := false, isEnpassantMove := false, isCastleMove := false }

/-- Sparse en-passant position: white king h1 (7,7), black king a8 (0,0),
white pawn e5 (3,4), black pawn d5 (3,3) that just advanced two squares, so
the en-passant target is (2,3) and white can capture en passant. -/
def boardC4 : Board :=
  [ emptyRow8.set 0 (Piece.mk PColor.b PKind.K),
    emptyRow8, emptyRow8,
    (emptyRow8.set 3 (Piece.mk PColor.b PKind.P)).set 4 (Piece.mk PColor.w PKind.P),
    emptyRow8, emptyRow8, emptyRow8,
    emptyRow8.set 7 (Piece.mk PColor.w PKind.K) ]

/-- The en-passant game state for the search frame test. -/
def gsC4 : GameState := mkState boardC4 true (7, 7) (0, 0) (some (2, 3))

/-- The state of gsC4 returned by getValidMoves, as the caller passes to the
search. -/
def gsC4Scanned : GameState := (getValidMoves gsC4).2

/-- The legal moves of gsC4. -/
def vmC4 : List Move := (getValidMoves gsC4).1

/-- The game state after a depth-1 findMoveNegaMaxAlphaBeta search on gsC4. -/
def searchC4State : GameState :=
  (findMoveNegaMaxAlphaBeta gsC4Scanned vmC4 1 1 (-CHECKMATE) CHECKMATE none).2.1

/-- Bare-king position: white king h1 (7,7) versus black king a8 (0,0) and
black queen b5 (3,1); white to move, not in check, three legal king moves,
and white is down a queen in every line. -/
def boardC5 : Board :=
  [ emptyRow8.set 0 (Piece.mk PColor.b PKind.K),
    emptyRow8, emptyRow8,
    emptyRow8.set 1 (Piece.mk PColor.b PKind.Q),
    emptyRow8, emptyRow8, emptyRow8,
    emptyRow8.set 7 (Piece.mk PColor.w PKind.K) ]

/-- The bare-king game state for the search selection test. -/
def gsC5 : GameState := mkState boardC5 true (7, 7) (0, 0) none

/-- The state of gsC5 returned by getValidMoves. -/
def gsC5Scanned : GameState := (getValidMoves gsC5).2

/-- The legal moves of gsC5. -/
def vmC5 : List Move := (getValidMoves gsC5).1

/-- A sample move with both squares in range, moving a white pawn. -/
def sampleMoveA : Move :=
  { startRow := 1, startCol := 2, endRow := 3, endCol := 4,
    pieceMoved := Piece.mk PColor.w PKind.P, pieceCaptured := Piece.empty,
    isPawnPromotion := false, isEnpassantMove := false, isCastleMove := false }

/-- A move with the same squares as sampleMoveA but a different piece,
capture, and flags. -/
def sampleMoveB : Move :=
  { startRow := 1, startCol := 2, endRow := 3, endCol := 4,
    pieceMoved := Piece.mk PColor.b PKind.Q, pieceCaptured := Piece.mk PColor.w PKind.R,
    isPawnPromotion := true, isEnpassantMove := false, isCastleMove := true }

/-- Coordinates of a move all within the board range 0..7. -/
def Move.coordsInRange (m : Move) : Prop :=
  0 ≤ m.startRow ∧ m.startRow ≤ 7 ∧ 0 ≤ m.startCol ∧ m.startCol ≤ 7 ∧
  0 ≤ m.endRow ∧ m.endRow ≤ 7 ∧ 0 ≤ m.endCol ∧ m.endCol ≤ 7

instance (m : Move) : Decidable m.coordsInRange := by
  unfold Move.coordsInRange
  infer_instance

/-! Frame lemmas: move generation can mutate only the pins list of the
GameState (pin entries are consumed by the piece generators); every other
field is preserved. -/

/-- Two game states agreeing on every field except possibly pins. -/
def AgreesExceptPins (a b : GameState) : Prop :=
  a.board = b.board ∧ a.whiteToMove = b.whiteToMove ∧ a.moveLog = b.moveLog ∧
  a.whiteKingLocation = b.whiteKingLocation ∧
  a.blackKingLocation = b.blackKingLocation ∧
  a.inCheck = b.inCheck ∧ a.checkMate = b.checkMate ∧ a.staleMate = b.staleMate ∧
  a.checks = b.checks ∧ a.enpassantPossible = b.enpassantPossible ∧
  a.enpassantPossibleLog = b.enpassantPossibleLog ∧
  a.currentCastlingRights = b.currentCastlingRights ∧
  a.castleRightsLog = b.castleRightsLog

theorem AgreesExceptPins.rfl (a : GameState) : AgreesExceptPins a a := by
  simp [AgreesExceptPins]

theorem AgreesExceptPins.trans {a b c : GameState}
    (h1 : AgreesExceptPins a b) (h2 : AgreesExceptPins b c) :
    AgreesExceptPins a c := by
  obtain ⟨e1, e2, e3, e4, e5, e6, e7, e8, e9, e10, e11, e12, e13⟩ := h1
  obtain ⟨f1, f2, f3, f4, f5, f6, f7, f8, f9, f10, f11, f12, f13⟩ := h2
  exact ⟨e1.trans f1, e2.trans f2, e3.trans f3, e4.trans f4, e5.trans f5,
    e6.trans f6, e7.trans f7, e8.trans f8, e9.trans f9, e10.trans f10,
    e11.trans f11, e12.trans f12, e13.trans f13⟩

theorem getPawnMoves_frame (gs : GameState) (r c : Int) (ms : List Move) :
    AgreesExceptPins gs (getPawnMoves gs r c ms).1 := by
  unfold getPawnMoves
  rcases pinLookup gs.pins r c with ⟨pp, pd, pins1⟩
  by_cases hw : gs.whiteToMove <;> simp [hw, AgreesExceptPins]

theorem getRookMoves_frame (gs : GameState) (r c : Int) (ms : List Move) :
    AgreesExceptPins gs (getRookMoves gs r c ms).1 := by
  unfold getRookMoves
  rcases pinLookupRook gs.board gs.pins r c with ⟨pp, pd, pins1⟩
  simp [AgreesExceptPins]

theorem getBishopMoves_frame (gs : GameState) (r c : Int) (ms : List Move) :
    AgreesExceptPins gs (getBishopMoves gs r c ms).1 := by
  unfold getBishopMoves
  rcases pinLookup gs.pins r c with ⟨pp, pd, pins1⟩
  simp [AgreesExceptPins]

theorem getKnightMoves_frame (gs : GameState) (r c : Int) (ms : List Move) :
    AgreesExceptPins gs (getKnightMoves gs r c ms).1 := by
  unfold getKnightMoves
  rcases pinLookup gs.pins r c with ⟨pp, pd, pins1⟩
  simp [AgreesExceptPins]

theorem getQueenMoves_frame (gs : GameState) (r c : Int) (ms : List Move) :
    AgreesExceptPins gs (getQueenMoves gs r c ms).1 := by
  unfold getQueenMoves
  rcases hg : getBishopMoves gs r c ms with ⟨gs1, m1⟩
  have h1 : AgreesExceptPins gs gs1 := by
    have := getBishopMoves_frame gs r c ms
    rw [hg] at this
    exact this
  exact h1.trans (getRookMoves_frame gs1 r c m1)

theorem foldl_frame {β : Type} (f : (GameState × List Move) → β → (GameState × List Move))
    (hf : ∀ acc x, AgreesExceptPins acc.1 (f acc x).1) :
    ∀ (l : List β) (g0 : GameState) (ms0 : List Move),
      AgreesExceptPins g0 (l.foldl f (g0, ms0)).1 := by
  intro l
  induction l with
  | nil => intro g0 ms0; exact AgreesExceptPins.rfl _
  | cons x xs ih =>
    intro g0 ms0
    exact (hf (g0, ms0) x).trans (ih (f (g0, ms0) x).1 (f (g0, ms0) x).2)

theorem getAllPossibleMoves_frame (gs : GameState) :
    AgreesExceptPins gs (getAllPossibleMoves gs).1 := by
  unfold getAllPossibleMoves
  refine foldl_frame _ ?_ _ gs []
  intro acc r
  refine foldl_frame _ ?_ _ acc.1 acc.2
  intro acc2 c
  obtain ⟨gsA, ms⟩ := acc2
  dsimp only
  split
  · split
    · exact getPawnMoves_frame _ _ _ _
    · exact getRookMoves_frame _ _ _ _
    · exact getKnightMoves_frame _ _ _ _
    · exact getBishopMoves_frame _ _ _ _
    · exact getQueenMoves_frame _ _ _ _
    · exact AgreesExceptPins.rfl _
  · exact AgreesExceptPins.rfl _

theorem squareUnderAttack_frame (gs : GameState) (r c : Int) :
    AgreesExceptPins gs (squareUnderAttack gs r c).2 := by
  show AgreesExceptPins gs
    { (getAllPossibleMoves { gs with whiteToMove := !gs.whiteToMove }).1 with
      whiteToMove :=
        !(getAllPossibleMoves { gs with whiteToMove := !gs.whiteToMove }).1.whiteToMove }
  have h := getAllPossibleMoves_frame { gs with whiteToMove := !gs.whiteToMove }
  generalize (getAllPossibleMoves { gs with whiteToMove := !gs.whiteToMove }).1 = g2 at h ⊢
  obtain ⟨e1, e2, e3, e4, e5, e6, e7, e8, e9, e10, e11, e12, e13⟩ := h
  have e2n : (!gs.whiteToMove) = g2.whiteToMove := e2
  refine ⟨e1, ?_, e3, e4, e5, e6, e7, e8, e9, e10, e11, e12, e13⟩
  show gs.whiteToMove = !g2.whiteToMove
  rw [← e2n]
  simp

theorem getKingsideCastleMoves_frame (gs : GameState) (row col : Int)
    (ms : List Move) :
    AgreesExceptPins gs (getKingsideCastleMoves gs row col ms).1 := by
  unfold getKingsideCastleMoves
  dsimp only
  have h1 := squareUnderAttack_frame gs row (col + 1)
  generalize squareUnderAttack gs row (col + 1) = p1 at h1 ⊢
  have h2 := h1.trans (squareUnderAttack_frame p1.2 row (col + 2))
  generalize squareUnderAttack p1.2 row (col + 2) = p2 at h2 ⊢
  repeat' split
  all_goals first
    | exact AgreesExceptPins.rfl gs
    | exact h1
    | exact h2

theorem getQueensideCastleMoves_frame (gs : GameState) (row col : Int)
    (ms : List Move) :
    AgreesExceptPins gs (getQueensideCastleMoves gs row col ms).1 := by
  unfold getQueensideCastleMoves
  dsimp only
  have h1 := squareUnderAttack_frame gs row (col - 1)
  generalize squareUnderAttack gs row (col - 1) = p1 at h1 ⊢
  have h2 := h1.trans (squareUnderAttack_frame p1.2 row (col - 2))
  generalize squareUnderAttack p1.2 row (col - 2) = p2 at h2 ⊢
  repeat' split
  all_goals first
    | exact AgreesExceptPins.rfl gs
    | exact h1
    | exact h2

theorem getCastleMoves_frame (gs : GameState) (row col : Int) (ms : List Move) :
    AgreesExceptPins gs (getCastleMoves gs row col ms).1 := by
  unfold getCastleMoves
  dsimp only
  have h0 := squareUnderAttack_frame gs row col
  generalize squareUnderAttack gs row col = a0 at h0 ⊢
  have hk := h0.trans (getKingsideCastleMoves_frame a0.2 row col ms)
  generalize getKingsideCastleMoves a0.2 row col ms = k1 at hk ⊢
  have hq1 := hk.trans (getQueensideCastleMoves_frame k1.1 row col k1.2)
  have hq2 := h0.trans (getQueensideCastleMoves_frame (a0.2, ms).1 row col (a0.2, ms).2)
  repeat' split
  all_goals first
    | exact h0
    | exact hk
    | exact hq1
    | exact hq2

theorem getValidMovesStep_frame (gs : GameState) (kr kc : Int) :
    AgreesExceptPins gs (getValidMovesStep gs kr kc).2 := by
  unfold getValidMovesStep
  dsimp only
  have h1 := getAllPossibleMoves_frame gs
  generalize getAllPossibleMoves gs = g1 at h1 ⊢
  have h2 := h1.trans (getCastleMoves_frame g1.1 kr kc g1.2)
  generalize getCastleMoves g1.1 kr kc g1.2 = g2 at h2 ⊢
  repeat' split
  all_goals first
    | exact AgreesExceptPins.rfl gs
    | exact h1
    | exact h2

theorem setMateFlags_spec (moves : List Move) (gs : GameState) :
    (setMateFlags moves gs).checkMate = (moves.isEmpty && gs.inCheck)
    ∧ (setMateFlags moves gs).staleMate = (moves.isEmpty && !gs.inCheck)
    ∧ (setMateFlags moves gs).inCheck = gs.inCheck := by
  by_cases h : moves.isEmpty <;> simp [setMateFlags, h]

theorem beqPieceDecide (p q : Piece) : (p == q) = decide (p = q) := rfl

theorem beqIntDecide (a b : Int) : (a == b) = decide (a = b) := rfl

theorem captureRights_char (m : Move) (cr : CastleRights) :
    ((updateCastleRightsCapture m cr).wqs
      = (cr.wqs && !(m.pieceCaptured == Piece.mk PColor.w PKind.R && m.endCol == 0)))
    ∧ ((updateCastleRightsCapture m cr).wks
      = (cr.wks && !(m.pieceCaptured == Piece.mk PColor.w PKind.R && m.endCol == 7)))
    ∧ ((updateCastleRightsCapture m cr).bqs
      = (cr.bqs && !(m.pieceCaptured == Piece.mk PColor.b PKind.R && m.endCol == 0)))
    ∧ ((updateCastleRightsCapture m cr).bks
      = (cr.bks && !(m.pieceCaptured == Piece.mk PColor.b PKind.R && m.endCol == 7))) := by
  unfold updateCastleRightsCapture
  repeat' split
  all_goals simp_all [beqPieceDecide, beqIntDecide]

theorem movedRights_char (m : Move) (cr : CastleRights) :
    ((updateCastleRightsMoved m cr).wqs
      = (cr.wqs && !(m.pieceMoved == Piece.mk PColor.w PKind.K)
          && !(m.pieceMoved == Piece.mk PColor.w PKind.R && m.startRow == 7 && m.startCol == 0)))
    ∧ ((updateCastleRightsMoved m cr).wks
      = (cr.wks && !(m.pieceMoved == Piece.mk PColor.w PKind.K)
          && !(m.pieceMoved == Piece.mk PColor.w PKind.R && m.startRow == 7 && m.startCol == 7)))
    ∧ ((updateCastleRightsMoved m cr).bqs
      = (cr.bqs && !(m.pieceMoved == Piece.mk PColor.b PKind.K)
          && !(m.pieceMoved == Piece.mk PColor.b PKind.R && m.startRow == 0 && m.startCol == 0)))
    ∧ ((updateCastleRightsMoved m cr).bks
      = (cr.bks && !(m.pieceMoved == Piece.mk PColor.b PKind.K)
          && !(m.pieceMoved == Piece.mk PColor.b PKind.R && m.startRow == 0 && m.startCol == 7))) := by
  unfold updateCastleRightsMoved
  repeat' split
  all_goals simp_all [beqPieceDecide, beqIntDecide]

/-! Claim theorems. -/

set_option maxRecDepth 100000 in
set_option maxHeartbeats 4000000 in
/-- C1 (code bug): on the single-check position gsC1 the rescue-square filter
of getValidMoves excludes the attacker square and admits ray squares beyond
the attacker: the state is in check with exactly one checker, the knight
capture of the checking queen is pseudo-legal yet missing from the returned
moves, while the rook move to a ray square beyond the attacker is returned.
The last two conjuncts verify that the dropped capture resolves the check and
the kept rook move leaves the king in check.  The spec says the rescue
squares are the blocking squares together with the attacker square itself. -/
theorem getValidMoves_singleCheck_filter_bug :
    ((getValidMoves gsC1).2.inCheck = true)
    ∧ ((getValidMoves gsC1).2.checks.length = 1)
    ∧ (knightCapturesChecker ∈ (getAllPossibleMoves gsC1Scanned).2)
    ∧ (knightCapturesChecker ∉ (getValidMoves gsC1).1)
    ∧ (rookBeyondAttacker ∈ (getValidMoves gsC1).1)
    ∧ ((checkForPinsAndChecks
        { makeMove gsC1Scanned knightCapturesChecker with whiteToMove := true }).1
          = false)
    ∧ ((checkForPinsAndChecks
        { makeMove gsC1Scanned rookBeyondAttacker with whiteToMove := true }).1
          = true) := by
  decide

set_option maxRecDepth 100000 in
set_option maxHeartbeats 4000000 in
/-- C2 (code bug): making e2e4 and then Ng8f6 from the initial position and
undoing the knight move restores the board, side to move, king locations and
castling rights, but not the en-passant target: it was (5,4) before Ng8f6 and
is cleared after the undo, because undoMove restores the en-passant state only
for en-passant capture moves. -/
theorem makeMove_undoMove_enpassant_not_restored :
    (moveNg8f6 ∈ (getValidMoves gsAfterE2E4).1)
    ∧ (gsAfterUndo.board = gsAfterE2E4.board)
    ∧ (gsAfterUndo.whiteToMove = gsAfterE2E4.whiteToMove)
    ∧ (gsAfterUndo.whiteKingLocation = gsAfterE2E4.whiteKingLocation)
    ∧ (gsAfterUndo.blackKingLocation = gsAfterE2E4.blackKingLocation)
    ∧ (gsAfterUndo.currentCastlingRights = gsAfterE2E4.currentCastlingRights)
    ∧ (gsAfterE2E4.enpassantPossible = some (5, 4))
    ∧ (gsAfterUndo.enpassantPossible ≠ gsAfterE2E4.enpassantPossible) := by
  decide

/-- C3 counterexample: capturing a white rook on a8 = (0,0), which is not a
white rook original corner square, still clears the white queenside right,
because updateCastleRights tests only the end column of the capture. -/
theorem updateCastleRights_capture_ignores_row :
    ((updateCastleRights bBxA8Rook ⟨true, true, true, true⟩).wqs = false)
    ∧ ((bBxA8Rook.endRow, bBxA8Rook.endCol) ≠ ((7 : Int), (0 : Int)))
    ∧ ((bBxA8Rook.endRow, bBxA8Rook.endCol) ≠ ((7 : Int), (7 : Int))) := by
  decide

/-- C3 as amended: updateCastleRights clears a right on a capture exactly when
the captured piece is a rook of that color and the capture square is on the
corresponding rook starting column (0 for queenside, 7 for kingside),
regardless of the row; any king move clears both rights for that color; any
rook move from its original corner square clears that side right; and each
output field is the corresponding input field conjoined with negated clearing
conditions, so rights only ever narrow during forward play. -/
theorem updateCastleRights_characterization (m : Move) (cr : CastleRights) :
    ((updateCastleRights m cr).wqs = (cr.wqs
      && !(m.pieceCaptured == Piece.mk PColor.w PKind.R && m.endCol == 0)
      && !(m.pieceMoved == Piece.mk PColor.w PKind.K)
      && !(m.pieceMoved == Piece.mk PColor.w PKind.R && m.startRow == 7 && m.startCol == 0)))
    ∧ ((updateCastleRights m cr).wks = (cr.wks
      && !(m.pieceCaptured == Piece.mk PColor.w PKind.R && m.endCol == 7)
      && !(m.pieceMoved == Piece.mk PColor.w PKind.K)
      && !(m.pieceMoved == Piece.mk PColor.w PKind.R && m.startRow == 7 && m.startCol == 7)))
    ∧ ((updateCastleRights m cr).bqs = (cr.bqs
      && !(m.pieceCaptured == Piece.mk PColor.b PKind.R && m.endCol == 0)
      && !(m.pieceMoved == Piece.mk PColor.b PKind.K)
      && !(m.pieceMoved == Piece.mk PColor.b PKind.R && m.startRow == 0 && m.startCol == 0)))
    ∧ ((updateCastleRights m cr).bks = (cr.bks
      && !(m.pieceCaptured == Piece.mk PColor.b PKind.R && m.endCol == 7)
      && !(m.pieceMoved == Piece.mk PColor.b PKind.K)
      && !(m.pieceMoved == Piece.mk PColor.b PKind.R && m.startRow == 0 && m.startCol == 7))) := by
  obtain ⟨c1, c2, c3, c4⟩ := captureRights_char m cr
  obtain ⟨d1, d2, d3, d4⟩ := movedRights_char m (updateCastleRightsCapture m cr)
  unfold updateCastleRights
  refine ⟨?_, ?_, ?_, ?_⟩
  · rw [d1, c1]
  · rw [d2, c2]
  · rw [d3, c3]
  · rw [d4, c4]

set_option maxRecDepth 100000 in
set_option maxHeartbeats 8000000 in
/-- C4 (code bug): a depth-1 findMoveNegaMaxAlphaBeta search on the en-passant
position gsC4 pairs every makeMove with an undoMove and so restores the
board, side to move, move log and castling rights, but leaves the en-passant
target cleared and the en-passant log grown, because undoMove does not
restore the en-passant state for ordinary moves. -/
theorem search_leaves_enpassant_state_mutated :
    (vmC4 ≠ [])
    ∧ (searchC4State.board = gsC4Scanned.board)
    ∧ (searchC4State.whiteToMove = gsC4Scanned.whiteToMove)
    ∧ (searchC4State.moveLog = gsC4Scanned.moveLog)
    ∧ (searchC4State.currentCastlingRights = gsC4Scanned.currentCastlingRights)
    ∧ (searchC4State.enpassantPossible ≠ gsC4Scanned.enpassantPossible)
    ∧ (searchC4State.enpassantPossibleLog ≠ gsC4Scanned.enpassantPossibleLog) := by
  decide

set_option maxRecDepth 100000 in
set_option maxHeartbeats 16000000 in
/-- C5 (code bug): on the bare-king position gsC5 white has three legal moves,
yet findBestMove returns none, because the recursive search call passes
(-beta, -alpha, -turnMultiplier) into the (turnMultiplier, alpha, beta)
parameter positions, so every root score stays at -CHECKMATE and the best
move is never recorded. -/
theorem findBestMove_none_on_nonempty :
    ((findBestMove gsC5Scanned vmC5).1 = none) ∧ (vmC5 ≠ []) := by
  decide

/-- C6: after getValidMoves the checkMate flag is set exactly when the
returned move list is empty and the side to move is in check, the staleMate
flag exactly when the list is empty and the side is not in check, and the
stored inCheck flag matches the pins-and-checks scan of the input state. -/
theorem getValidMoves_mate_flags (gs0 : GameState) :
    ((getValidMoves gs0).2.checkMate
        = ((getValidMoves gs0).1.isEmpty && (checkForPinsAndChecks gs0).1))
    ∧ ((getValidMoves gs0).2.staleMate
        = ((getValidMoves gs0).1.isEmpty && !(checkForPinsAndChecks gs0).1))
    ∧ ((getValidMoves gs0).2.inCheck = (checkForPinsAndChecks gs0).1) := by
  have h := getValidMovesStep_frame
    { gs0 with inCheck := (checkForPinsAndChecks gs0).1,
               pins := (checkForPinsAndChecks gs0).2.1,
               checks := (checkForPinsAndChecks gs0).2.2 }
    (if gs0.whiteToMove then gs0.whiteKingLocation else gs0.blackKingLocation).1
    (if gs0.whiteToMove then gs0.whiteKingLocation else gs0.blackKingLocation).2
  have h6 := h.2.2.2.2.2.1
  dsimp only at h6
  unfold getValidMoves
  dsimp only
  rw [(setMateFlags_spec _ _).1, (setMateFlags_spec _ _).2.1,
    (setMateFlags_spec _ _).2.2]
  rw [← h6]
  exact ⟨rfl, rfl, rfl⟩

set_option maxRecDepth 100000 in
set_option maxHeartbeats 4000000 in
/-- C7: getValidMoves on the freshly constructed initial game state returns
exactly 20 moves. -/
theorem initial_position_twenty_moves :
    (getValidMoves initialGameState).1.length = 20 := by
  decide

/-- C8: for moves with coordinates in 0..7 the moveID encoding is injective
on the square pairs, so Move equality holds exactly when the start and end
squares agree, independently of the pieces and flags. -/
theorem moveEq_iff_same_squares (m1 m2 : Move)
    (h1 : m1.coordsInRange) (h2 : m2.coordsInRange) :
    moveEq m1 m2 = true ↔
      (m1.startRow = m2.startRow ∧ m1.startCol = m2.startCol ∧
       m1.endRow = m2.endRow ∧ m1.endCol = m2.endCol) := by
  obtain ⟨a1, a2, a3, a4, a5, a6, a7, a8⟩ := h1
  obtain ⟨b1, b2, b3, b4, b5, b6, b7, b8⟩ := h2
  simp only [moveEq, Move.moveID, beq_iff_eq]
  constructor
  · intro h
    refine ⟨?_, ?_, ?_, ?_⟩ <;> omega
  · intro h
    omega

/-- C8 witness: two concrete in-range moves with equal squares but different
pieces and flags are equal under moveEq. -/
theorem moveEq_iff_same_squares_witness :
    Move.coordsInRange sampleMoveA ∧ Move.coordsInRange sampleMoveB
    ∧ moveEq sampleMoveA sampleMoveB = true :=
  ⟨by decide, by decide,
    (moveEq_iff_same_squares sampleMoveA sampleMoveB (by decide) (by decide)).mpr
      (by decide)⟩

/-- C9: getValidMoves returns the castling rights exactly as they were before
the call: the snapshot taken at entry is written back before returning. -/
theorem getValidMoves_preserves_castlingRights (gs : GameState) :
    (getValidMoves gs).2.currentCastlingRights = gs.currentCastlingRights := rfl

/-- C10: findRandomMove raises (an error result) on an empty move list, since
randint(0, -1) is an invalid range, and returns an element of the list for
any in-range random index on a non-empty list. -/
theorem findRandomMove_spec (gs : GameState) (k : Nat) (vm : List Move) :
    (vm = [] → ∃ e, findRandomMove gs k vm = Except.error e)
    ∧ (vm ≠ [] → k < vm.length →
        ∃ m, findRandomMove gs k vm = Except.ok m ∧ m ∈ vm) := by
  constructor
  · rintro rfl
    exact ⟨_, rfl⟩
  · intro hne hk
    have hlen : ¬ vm.length = 0 := by
      simpa using hne
    have hsome : vm[k]? = some vm[k] := List.getElem?_eq_getElem hk
    refine ⟨vm[k], ?_, ?_⟩
    · unfold findRandomMove
      rw [if_neg hlen, hsome]
    · exact List.getElem_mem hk

/-- C10 witness: on the singleton list holding sampleMoveA, index 0 yields
that move. -/
theorem findRandomMove_spec_witness :
    ([sampleMoveA] ≠ ([] : List Move)) ∧ (0 < [sampleMoveA].length)
    ∧ ∃ m, findRandomMove initialGameState 0 [sampleMoveA] = Except.ok m
        ∧ m ∈ [sampleMoveA] :=
  ⟨by decide, by decide,
    (findRandomMove_spec initialGameState 0 [sampleMoveA]).2 (by decide) (by decide)⟩

end ChessSpec
